import Mathlib

/-!
Verification development for the groupchat-wrapped front end (`src/App.js`).

The client-side data pipeline is shallowly embedded here:
  * JSON-like values carried in analysis rows (`JVal`), with JS truthiness;
  * the helper functions `isValidArray`, `safeGet`, `sortBarData`,
    `generateDistinctColors`, `getRandomColor`, `groupBySender`;
  * the chart assembler `buildChartDataSets`, including the JS exception flow
    of its single try/catch block (a property access on an absent metric key
    throws, the catch returns whatever items were accumulated so far);
  * the navigation handler `handleScroll` and the year-change handler
    `handleYearChange` together with the phase-driven render dispatch.

Modelling conventions:
  * JS numbers are modelled as integers (`Int`); none of the verified
    properties depend on floating-point rounding.  The hue computed by
    `generateDistinctColors` is kept as an exact rational where JS uses a
    double; only determinism and per-sender assignment of colors matter here.
  * `Array.prototype.sort` is modelled as a stable sort (guaranteed since
    ES2019).  Per ECMA-262 `SortCompare`, a NaN comparator result counts as 0.
  * `null`/`undefined`/non-array positions are modelled with `Option`.
-/

namespace GW

/-- A JSON-ish scalar value as it appears in analysis rows.  `jnull` stands
for both JS `null` and `undefined` stored in a field. -/
inductive JVal where
  | jnull
  | jnum (n : Int)
  | jstr (s : String)
deriving DecidableEq, Repr

/-- JS truthiness of a `JVal` (used by `.filter(Boolean)`). -/
def truthy : JVal → Bool
  | .jnull => false
  | .jnum n => n != 0
  | .jstr s => s != ""

/-- A data row: a JS object, i.e. a finite map from field names to values. -/
abbrev Row := List (String × JVal)

/-- `safeGet(obj, path, default)` from App.js, for the one-component paths the
code uses: optional-chained field access whose result is defaulted (`??`) when
the object is `null`/`undefined`, the field is absent, or the field holds
`null`/`undefined`. -/
def safeGet (obj : Option Row) (field : String) (defaultValue : JVal) : JVal :=
  match obj with
  | none => defaultValue
  | some r =>
    match r.lookup field with
    | some .jnull => defaultValue
    | some v => v
    | none => defaultValue

/-- `isValidArray(arr)`: `Array.isArray(arr) && arr.length > 0`.  `none`
models a value that is not an array (including `null`/`undefined`). -/
def isValidArray : Option (List α) → Bool
  | none => false
  | some l => decide (0 < l.length)

/-- JS `ToNumber` on the value forms of our model; `none` models NaN.
Strings are restricted to the empty string (→ 0) and decimal integer
literals; other strings are NaN. -/
def toNumber : JVal → Option Int
  | .jnull => some 0
  | .jnum n => some n
  | .jstr s => if s = "" then some 0 else s.toInt?

/-- The comparator `(a, b) => b[1] - a[1]` used by `sortBarData`; per
ECMA-262 `SortCompare`, a NaN result is treated as `+0`. -/
def cmpPair (a b : JVal × JVal) : Int :=
  match toNumber a.2, toNumber b.2 with
  | some x, some y => y - x
  | _, _ => 0

/-- One insertion step of the stable sort modelling `pairs.sort(cmp)`:
`x` is placed before the first element it need not come after. -/
def insertPair (x : JVal × JVal) : List (JVal × JVal) → List (JVal × JVal)
  | [] => [x]
  | y :: ys => if cmpPair x y ≤ 0 then x :: y :: ys else y :: insertPair x ys

/-- Stable sort of label/value pairs with the comparator `cmpPair`
(insertion sort; ES2019 `Array.prototype.sort` is stable, and for a
consistent comparator every stable sort agrees). -/
def sortPairs : List (JVal × JVal) → List (JVal × JVal)
  | [] => []
  | x :: xs => insertPair x (sortPairs xs)

/-- Result record of `sortBarData`. -/
structure SortedBar where
  sortedLabels : List JVal
  sortedData : List JVal
deriving DecidableEq, Repr

/-- `sortBarData(labels, data)` from App.js: if either input is not a
non-empty array or the lengths differ, pass both through unchanged
(`labels || []`, `data || []`); otherwise pair them up, sort descending by
value, and unzip. -/
def sortBarData (labels data : Option (List JVal)) : SortedBar :=
  if isValidArray labels && isValidArray data
      && ((labels.getD []).length == (data.getD []).length) then
    let pairs := (labels.getD []).zip (data.getD [])
    let sorted := sortPairs pairs
    ⟨sorted.map Prod.fst, sorted.map Prod.snd⟩
  else
    ⟨labels.getD [], data.getD []⟩

/-- `[...new Set(l)]`: deduplication keeping the first occurrence of each
value, in encounter order (JS `Set` iteration order). -/
def dedupFirst [DecidableEq α] : List α → List α
  | [] => []
  | a :: l => a :: (dedupFirst l).filter (fun b => b ≠ a)

/-- JS `ToString` on the value forms of our model (used by the default
`Array.prototype.sort` comparator). -/
def jvalToString : JVal → String
  | .jnull => "null"
  | .jnum n => toString n
  | .jstr s => s

/-- One insertion step of the stable sort modelling `.sort()` with the
default comparator (lexicographic on the string forms). -/
def insertByStr (x : JVal) : List JVal → List JVal
  | [] => [x]
  | y :: ys =>
    if jvalToString x ≤ jvalToString y then x :: y :: ys else y :: insertByStr x ys

/-- `.sort()` with no comparator: stable sort, comparing `ToString` images
lexicographically. -/
def sortByStr : List JVal → List JVal
  | [] => []
  | x :: xs => insertByStr x (sortByStr xs)

/-- `generateDistinctColors(count)`: evenly spaced hsla colors.  The hue
`i * (360 / count)` is kept as an exact rational where JS computes a
double; the verified properties use only determinism and the list length. -/
def generateDistinctColors (count : Nat) : List String :=
  (List.range count).map fun (i : Nat) =>
    "hsla(" ++ toString ((i : ℚ) * (360 / (count : ℚ))) ++ ", 70%, 60%, 0.6)"

/-- `getRandomColor()`: the one randomness-consuming helper in the module.
`randomSource k` models the `k`-th value of `Math.floor(Math.random()*255)`.
It is defined for completeness; `buildChartDataSets` never calls it. -/
def getRandomColor (randomSource : Nat → Nat) : String :=
  let r := randomSource 0 % 255
  let g := randomSource 1 % 255
  let b := randomSource 2 % 255
  "rgba(" ++ toString r ++ ", " ++ toString g ++ ", " ++ toString b ++ ", 0.6)"

/-- One chart.js dataset object as built by App.js; fields that a given
construction site does not set are `none`. -/
structure Dataset where
  label : JVal
  data : List JVal
  borderColor : Option String
  backgroundColor : Option String
  fill : Option Bool
deriving DecidableEq, Repr

/-- Result record of `groupBySender`. -/
structure GroupBySenderResult where
  dates : List JVal
  datasets : List Dataset
deriving DecidableEq, Repr

/-- `groupBySender(data, dateField, valueField)` from App.js: one dataset per
distinct truthy sender, over the common x-axis of distinct truthy date
values sorted with the default comparator; a sender's value at a date with
no matching row defaults to 0 via `safeGet(undefined, valueField, 0)`.
The function's own try/catch is not modelled: no statement in the body can
throw (division by zero yields `Infinity` in JS, not an exception). -/
def groupBySender (data : Option (List Row)) (dateField valueField : String) :
    GroupBySenderResult :=
  if isValidArray data then
    let rows := data.getD []
    let senders :=
      (dedupFirst (rows.map fun d => safeGet (some d) "sender" (.jstr ""))).filter truthy
    let dates :=
      sortByStr
        ((dedupFirst (rows.map fun d => safeGet (some d) dateField (.jstr ""))).filter truthy)
    let colors := generateDistinctColors senders.length
    let datasets := (senders.zip colors).map fun sc =>
      let senderData := rows.filter fun d => safeGet (some d) "sender" (.jstr "") == sc.1
      let values := dates.map fun dt =>
        safeGet (senderData.find? fun x => safeGet (some x) dateField (.jstr "") == dt)
          valueField (.jnum 0)
      { label := sc.1, data := values, borderColor := some sc.2,
        backgroundColor := some sc.2, fill := some true }
    ⟨dates, datasets⟩
  else
    ⟨[], []⟩

/-- One named metric of the analysis payload (e.g. `day_of_week`).
`data = none` models a `data` field that is absent or not an array;
`caption = none` models an absent caption. -/
structure MetricSection where
  data : Option (List Row)
  caption : Option String
deriving DecidableEq, Repr

/-- The `content` object of one notable-day summary; `summary = none`
models an absent/falsy summary field. -/
structure SummaryContent where
  summary : Option String
deriving DecidableEq, Repr

/-- One raw chat-log line attached to a notable day. -/
structure ChatLogLine where
  sender : String
  date : String
  message : String
deriving DecidableEq, Repr

/-- One entry of `top_ten_days.day_summaries`.  `content = none` models an
absent `content` object: `dayData.content.summary` then throws. -/
structure DaySummaryRow where
  date : Option String
  content : Option SummaryContent
  chat_logs : Option (List ChatLogLine)
deriving DecidableEq, Repr

/-- The `top_ten_days` metric: tabular data plus the optional
`day_summaries` array. -/
structure TopTenSection where
  data : Option (List Row)
  caption : Option String
  day_summaries : Option (List DaySummaryRow)
deriving DecidableEq, Repr

/-- The analysis payload returned by the service.  Each field is `none`
when the corresponding metric key is absent from the payload object, in
which case a non-optional property access on it throws. -/
structure AnalysisPayload where
  day_of_week : Option MetricSection
  monthly_messages : Option MetricSection
  avg_messages_sent : Option MetricSection
  quarterly_contribution : Option MetricSection
  yearly_comparison : Option MetricSection
  top_ten_days : Option TopTenSection
  manic : Option MetricSection
  most_ignored : Option MetricSection
  novelist : Option MetricSection
  swears : Option MetricSection
  hangout : Option MetricSection
deriving DecidableEq, Repr

/-- Chart kind of a series item. -/
inductive ChartType where
  | bar
  | line
deriving DecidableEq, Repr

/-- One prepared notable-day summary (after the `map`/`filter` in
`buildChartDataSets`). -/
structure DaySummary where
  title : String
  summary : String
  chat_logs : List ChatLogLine
deriving DecidableEq, Repr

/-- One renderable item of the assembled sequence. -/
inductive ChartItem where
  | chart (title : String) (ctype : ChartType) (labels : List JVal)
      (datasets : List Dataset) (commentary : Option String)
  | summaryGrid (summaries : List DaySummary)
  | textCard (title : String) (summary : String)
deriving DecidableEq, Repr

/-- An apostrophe character, for the literal strings of App.js. -/
def apos : String := String.singleton (Char.ofNat 39)

/-- Title of the fixed closing text card. -/
def closingTitle : String := "That" ++ apos ++ "s all folks!"

/-- Body of the fixed closing text card. -/
def closingBody : String :=
  "We wish you and your groupchat the happiest of New Years! We like to have fun around here but all jokes aside, everyone in the groupchat is special, whether it" ++ apos ++ "s the guy who always posts videos you" ++ apos ++ "re not going to watch, or the old college bud with three kids that hasn" ++ apos ++ "t posted since the last one was born (cute pics though.) Shoot " ++ apos ++ "em a message and let em know you care. Share this Wrapped. Help us keep the lights on <3"

/-- One statement group of the `try` block of `buildChartDataSets`:
either it completes and contributes a (possibly empty) list of items, or it
throws a JS exception (`Except.error`). -/
abbrev BuildStep := Except Unit (List ChartItem)

/-- A ranking/award bar chart section: `analysisData.<key>.data` (throws if
the key is absent), guarded by `isValidArray`, labels/values extracted with
`safeGet`, sorted descending by `sortBarData`. -/
def sortedBarChartStep (sec : Option MetricSection) (labelField valueField : String)
    (title seriesLabel color : String) : BuildStep :=
  match sec with
  | none => .error ()
  | some s =>
    if isValidArray s.data then
      let rows := s.data.getD []
      let labels := rows.map fun d => safeGet (some d) labelField (.jstr "")
      let values := rows.map fun d => safeGet (some d) valueField (.jnum 0)
      let sorted := sortBarData (some labels) (some values)
      .ok [ChartItem.chart title .bar sorted.sortedLabels
            [{ label := .jstr seriesLabel, data := sorted.sortedData,
               borderColor := none, backgroundColor := some color, fill := none }]
            s.caption]
    else
      .ok []

/-- A time-series line chart section (monthly messages, average messages
sent): input order is preserved, no sorting. -/
def lineChartStep (sec : Option MetricSection) (labelField valueField : String)
    (title seriesLabel borderColor : String) : BuildStep :=
  match sec with
  | none => .error ()
  | some s =>
    if isValidArray s.data then
      let rows := s.data.getD []
      .ok [ChartItem.chart title .line (rows.map fun d => safeGet (some d) labelField (.jstr ""))
            [{ label := .jstr seriesLabel,
               data := rows.map fun d => safeGet (some d) valueField (.jnum 0),
               borderColor := some borderColor, backgroundColor := none, fill := some false }]
            s.caption]
    else
      .ok []

/-- The quarterly contribution section: grouped per sender, pushed only when
both the dates and the datasets are non-empty. -/
def quarterlyStep (sec : Option MetricSection) : BuildStep :=
  match sec with
  | none => .error ()
  | some s =>
    if isValidArray s.data then
      let quarterData := groupBySender s.data "date" "message_count"
      if 0 < quarterData.dates.length ∧ 0 < quarterData.datasets.length then
        .ok [ChartItem.chart "Quarterly Message Contribution by Sender" .line
              quarterData.dates quarterData.datasets s.caption]
      else
        .ok []
    else
      .ok []

/-- The top-ten-days bar chart (same shape as the award charts, but its
section also carries day summaries). -/
def topTenStep (sec : Option TopTenSection) : BuildStep :=
  match sec with
  | none => .error ()
  | some s =>
    if isValidArray s.data then
      let rows := s.data.getD []
      let labels := rows.map fun d => safeGet (some d) "day" (.jstr "")
      let values := rows.map fun d => safeGet (some d) "chats" (.jnum 0)
      let sorted := sortBarData (some labels) (some values)
      .ok [ChartItem.chart "Top 10 Most Active Days" .bar sorted.sortedLabels
            [{ label := .jstr "Number of Messages", data := sorted.sortedData,
               borderColor := none, backgroundColor := some "rgba(255, 206, 86, 0.6)",
               fill := none }]
            s.caption]
    else
      .ok []

/-- The `.map` over `day_summaries`: `String(dayData.date || '')`,
`String(dayData.content.summary || '')` (throws when `content` is absent),
`dayData.chat_logs || []`. -/
def mapDaySummaries : List DaySummaryRow → Option (List DaySummary)
  | [] => some []
  | r :: rs =>
    match r.content with
    | none => none
    | some c =>
      match mapDaySummaries rs with
      | none => none
      | some rest =>
        some ({ title := r.date.getD "", summary := (c.summary.getD ""),
                chat_logs := r.chat_logs.getD [] } :: rest)

/-- The notable-days grid: guarded by optional chaining
(`top_ten_days?.day_summaries`) plus `Array.isArray`, then mapped (which may
throw) and filtered to entries with non-empty title and summary. -/
def daySummariesStep (sec : Option TopTenSection) : BuildStep :=
  match sec with
  | none => .ok []
  | some s =>
    match s.day_summaries with
    | none => .ok []
    | some ds =>
      match mapDaySummaries ds with
      | none => .error ()
      | some summaries =>
        let summaries := summaries.filter fun x => x.title != "" && x.summary != ""
        if 0 < summaries.length then .ok [ChartItem.summaryGrid summaries] else .ok []

/-- Sequential execution of the statement groups of the `try` block: items
accumulate in order; the first thrown exception transfers control to the
`catch`, which returns the items accumulated so far.  (The array is mutated
in place, so items pushed before the throw survive.) -/
def runSteps : List BuildStep → List ChartItem
  | [] => []
  | .error () :: _ => []
  | .ok items :: rest => items ++ runSteps rest

set_option linter.unusedVariables false in
/-- `buildChartDataSets(analysisData)` from App.js.  `randomSource` is the
ambient source of randomness the module could consult via `getRandomColor`;
the function never calls it.  A falsy payload returns `[]` at once; the
closing text card push is the last statement inside the `try` block. -/
def buildChartDataSets (randomSource : Nat → Nat) (analysisData : Option AnalysisPayload) :
    List ChartItem :=
  match analysisData with
  | none => []
  | some a =>
    runSteps
      [sortedBarChartStep a.day_of_week "day_of_week" "avg_messages"
         "Average Messages by Day of Week" "Avg Messages by Day of Week"
         "rgba(54, 162, 235, 0.6)",
       lineChartStep a.monthly_messages "date" "message_count"
         "Monthly Message Count" "Messages per Month" "rgba(255, 99, 132, 1)",
       lineChartStep a.avg_messages_sent "month" "avg_messages_sent"
         "Average Messages Sent per Month" "Avg Messages per Month" "rgba(75, 192, 192, 1)",
       quarterlyStep a.quarterly_contribution,
       sortedBarChartStep a.yearly_comparison "sender" "percent_change"
         "Year-Over-Year Message Change" "YoY % Change" "rgba(153, 102, 255, 0.6)",
       topTenStep a.top_ten_days,
       daySummariesStep a.top_ten_days,
       sortedBarChartStep a.manic "sender" "percent_manic"
         "Most Manic Award" "% Messages (10pm-4am)" "rgba(54, 162, 235, 0.6)",
       sortedBarChartStep a.most_ignored "sender" "average_time_to_respond"
         "Most Ignored Member :(" "Average Minutes Until Response" "rgba(54, 162, 235, 0.6)",
       sortedBarChartStep a.novelist "sender" "average_message_length"
         "Groupchat Novelist Award" "Average Characters per Message" "rgba(54, 162, 235, 0.6)",
       sortedBarChartStep a.swears "sender" "swears_per_message"
         "Swear Word Frequency" "Swears per Message" "rgba(255, 99, 132, 0.6)",
       sortedBarChartStep a.hangout "sender" "hangouts_per_message"
         "Hangout Discussion Frequency" "Hangout References per Message"
         "rgba(75, 192, 192, 0.6)",
       .ok [ChartItem.textCard closingTitle closingBody]]

/-- A fixed stand-in random stream, used to state closed scenario facts. -/
def zeroRandom : Nat → Nat := fun _ => 0

/-- The payload in which every metric key is present but holds no usable
data: the assembler output is exactly the closing text card. -/
def allKeysEmptyPayload : AnalysisPayload :=
  { day_of_week := some ⟨none, none⟩
    monthly_messages := some ⟨none, none⟩
    avg_messages_sent := some ⟨none, none⟩
    quarterly_contribution := some ⟨none, none⟩
    yearly_comparison := some ⟨none, none⟩
    top_ten_days := some ⟨none, none, none⟩
    manic := some ⟨none, none⟩
    most_ignored := some ⟨none, none⟩
    novelist := some ⟨none, none⟩
    swears := some ⟨none, none⟩
    hangout := some ⟨none, none⟩ }

/-- The UI phase of the `App` component. -/
inductive Phase where
  | upload
  | loading
  | visualize
  | error
deriving DecidableEq, Repr

/-- The slice of `App` component state touched by year changes and scrolling. -/
structure AppState where
  phase : Phase
  analysisData : Option AnalysisPayload
  currentChartIndex : Int
  selectedYear : Option String
  errorMsg : Option String
deriving DecidableEq, Repr

/-- Outcome of the `fetch(analysisApiUrl + "/analyze", ...)` call made by
`handleYearChange`: a parsed JSON payload, a non-2xx response
(`response.ok` false, so the handler throws), or a network/parse rejection. -/
inductive FetchResult where
  | success (payload : AnalysisPayload)
  | httpError
  | networkError
deriving DecidableEq, Repr

/-- `handleYearChange(year)` from App.js, as a state transition given the
fetch outcome: the year is selected and the phase set to `loading` first;
on success the payload is replaced, the phase becomes `visualize` and the
cursor resets to 0; on any failure the catch sets the error message and the
phase becomes `error`, leaving payload and cursor untouched. -/
def handleYearChange (s : AppState) (year : String) (result : FetchResult) : AppState :=
  let s1 := { s with selectedYear := some year, phase := Phase.loading }
  match result with
  | .success json =>
    { s1 with analysisData := some json, phase := Phase.visualize, currentChartIndex := 0 }
  | .httpError =>
    { s1 with errorMsg := some "Failed to fetch data for year", phase := Phase.error }
  | .networkError =>
    { s1 with errorMsg := some "Failed to fetch data for year", phase := Phase.error }

/-- Which top-level screen the `App` render logic shows. -/
inductive Screen where
  | uploadScreen
  | loadingScreen
  | noDataScreen
  | visualizeScreen
  | errorScreen
deriving DecidableEq, Repr

/-- The render dispatch of `App`: phase selects the screen; in `visualize`
an empty assembled sequence shows the no-data notice instead. -/
def renderedScreen (randomSource : Nat → Nat) (s : AppState) : Screen :=
  match s.phase with
  | .upload => .uploadScreen
  | .loading => .loadingScreen
  | .visualize =>
    if (buildChartDataSets randomSource s.analysisData).length == 0 then
      .noDataScreen
    else
      .visualizeScreen
  | .error => .errorScreen

/-- `handleScroll(e)` from App.js, restricted to its effect on
`currentChartIndex`: no-op while the debounce flag is set or without a
payload or with an empty assembled sequence; otherwise a positive `deltaY`
steps forward and a negative one backward, each guarded by the bound. -/
def handleScroll (randomSource : Nat → Nat) (isScrolling : Bool)
    (analysisData : Option AnalysisPayload) (currentChartIndex : Int) (deltaY : Int) : Int :=
  if isScrolling || analysisData.isNone then
    currentChartIndex
  else
    let chartDataSets := buildChartDataSets randomSource analysisData
    if chartDataSets.length == 0 then
      currentChartIndex
    else if deltaY > 0 && currentChartIndex < (chartDataSets.length : Int) - 1 then
      currentChartIndex + 1
    else if deltaY < 0 && currentChartIndex > 0 then
      currentChartIndex - 1
    else
      currentChartIndex

/-- A finite sequence of wheel events, each seen with the debounce flag it
finds (`true` models an event arriving inside the 700 ms window) and its
`deltaY`, folded over the cursor. -/
def runScrollEvents (randomSource : Nat → Nat) (analysisData : Option AnalysisPayload)
    (events : List (Bool × Int)) (start : Int) : Int :=
  events.foldl (fun idx ev => handleScroll randomSource ev.1 analysisData idx ev.2) start

/-- Sort key of a label/value pair: the numeric value (0 in the NaN case,
which the sortedness lemmas exclude by hypothesis). -/
def pairKey (p : JVal × JVal) : Int := (toNumber p.2).getD 0

/-- The deduplicated truthy sender list of `groupBySender`. -/
def gbSenders (rows : List Row) : List JVal :=
  (dedupFirst (rows.map fun d => safeGet (some d) "sender" (.jstr ""))).filter truthy

/-- The sorted deduplicated truthy date axis of `groupBySender`. -/
def gbDates (rows : List Row) (dateField : String) : List JVal :=
  sortByStr
    ((dedupFirst (rows.map fun d => safeGet (some d) dateField (.jstr ""))).filter truthy)

/-- The dataset `groupBySender` builds for one sender/color pair. -/
def gbDataset (rows : List Row) (dateField valueField : String)
    (sc : JVal × String) : Dataset :=
  { label := sc.1
    data := (gbDates rows dateField).map fun dt =>
      safeGet
        ((rows.filter fun d => safeGet (some d) "sender" (.jstr "") == sc.1).find?
          fun x => safeGet (some x) dateField (.jstr "") == dt)
        valueField (.jnum 0)
    borderColor := some sc.2
    backgroundColor := some sc.2
    fill := some true }

/-- All datasets of `groupBySender`, one per sender, colored in order. -/
def gbDatasets (rows : List Row) (dateField valueField : String) : List Dataset :=
  ((gbSenders rows).zip (generateDistinctColors (gbSenders rows).length)).map
    (gbDataset rows dateField valueField)

/-- The payload whose only metric is a one-row `monthly_messages`; every
other metric key (in particular `day_of_week`) is absent. -/
def monthlyOnlyPayload : AnalysisPayload :=
  { day_of_week := none
    monthly_messages :=
      some ⟨some [[("date", .jstr "2024-01"), ("message_count", .jnum 3)]], some "cap"⟩
    avg_messages_sent := none
    quarterly_contribution := none
    yearly_comparison := none
    top_ten_days := none
    manic := none
    most_ignored := none
    novelist := none
    swears := none
    hangout := none }

/-- `monthlyOnlyPayload` with `day_of_week` present but empty. -/
def monthlyWithEmptyDayPayload : AnalysisPayload :=
  { monthlyOnlyPayload with day_of_week := some ⟨none, none⟩ }

/-- The monthly line chart item built from `monthlyOnlyPayload`'s row. -/
def monthlyItem : ChartItem :=
  ChartItem.chart "Monthly Message Count" .line [.jstr "2024-01"]
    [{ label := .jstr "Messages per Month", data := [.jnum 3],
       borderColor := some "rgba(255, 99, 132, 1)", backgroundColor := none,
       fill := some false }]
    (some "cap")

/-- The scenario payload of C8: only `day_of_week` is present, with rows
Mon→5 and Tue→10. -/
def dayOfWeekScenarioPayload : AnalysisPayload :=
  { day_of_week :=
      some ⟨some [[("day_of_week", .jstr "Mon"), ("avg_messages", .jnum 5)],
                  [("day_of_week", .jstr "Tue"), ("avg_messages", .jnum 10)]], none⟩
    monthly_messages := none
    avg_messages_sent := none
    quarterly_contribution := none
    yearly_comparison := none
    top_ten_days := none
    manic := none
    most_ignored := none
    novelist := none
    swears := none
    hangout := none }

/-! ### Lemmas about the helper functions -/

theorem mem_dedupFirst [DecidableEq α] {a : α} {l : List α} :
    a ∈ dedupFirst l ↔ a ∈ l := by
  induction l with
  | nil => simp [dedupFirst]
  | cons b l ih =>
    by_cases hab : a = b
    · subst hab; simp [dedupFirst]
    · simp [dedupFirst, hab, List.mem_filter, ih]

theorem nodup_dedupFirst [DecidableEq α] (l : List α) : (dedupFirst l).Nodup := by
  induction l with
  | nil => simp [dedupFirst]
  | cons b l ih =>
    refine List.Nodup.cons (fun hb => ?_) (ih.filter _)
    have := List.of_mem_filter hb
    simp at this

theorem mem_insertByStr {a x : JVal} {l : List JVal} :
    a ∈ insertByStr x l ↔ a = x ∨ a ∈ l := by
  induction l with
  | nil => simp [insertByStr]
  | cons y ys ih =>
    by_cases h : jvalToString x ≤ jvalToString y
    · simp [insertByStr, h]
    · simp only [insertByStr, h, if_false, List.mem_cons, ih]
      tauto

theorem insertByStr_perm (x : JVal) (l : List JVal) :
    List.Perm (insertByStr x l) (x :: l) := by
  induction l with
  | nil => exact List.Perm.refl _
  | cons y ys ih =>
    by_cases h : jvalToString x ≤ jvalToString y
    · simp only [insertByStr, h, if_true]
      exact List.Perm.refl _
    · simp only [insertByStr, h, if_false]
      exact List.Perm.trans (ih.cons y) (List.Perm.swap x y ys)

theorem sortByStr_perm (l : List JVal) : List.Perm (sortByStr l) l := by
  induction l with
  | nil => exact List.Perm.refl _
  | cons x xs ih =>
    exact List.Perm.trans (insertByStr_perm x (sortByStr xs)) (ih.cons x)

theorem pairwise_insertByStr {x : JVal} {l : List JVal}
    (h : l.Pairwise fun a b => jvalToString a ≤ jvalToString b) :
    (insertByStr x l).Pairwise fun a b => jvalToString a ≤ jvalToString b := by
  induction l with
  | nil => simp [insertByStr]
  | cons y ys ih =>
    rcases List.pairwise_cons.mp h with ⟨hy, hys⟩
    by_cases hxy : jvalToString x ≤ jvalToString y
    · simp only [insertByStr, hxy, if_true]
      refine List.pairwise_cons.mpr ⟨?_, h⟩
      intro z hz
      rcases List.mem_cons.mp hz with hz | hz
      · exact hz ▸ hxy
      · exact le_trans hxy (hy z hz)
    · simp only [insertByStr, hxy, if_false]
      refine List.pairwise_cons.mpr ⟨?_, ih hys⟩
      intro z hz
      rcases mem_insertByStr.mp hz with hz | hz
      · exact hz ▸ le_of_not_le hxy
      · exact hy z hz

theorem pairwise_sortByStr (l : List JVal) :
    (sortByStr l).Pairwise fun a b => jvalToString a ≤ jvalToString b := by
  induction l with
  | nil => simp [sortByStr]
  | cons x xs ih => exact pairwise_insertByStr ih

theorem cmpPair_le_zero_iff {x y : JVal × JVal} {a b : Int}
    (hx : x.2 = JVal.jnum a) (hy : y.2 = JVal.jnum b) :
    cmpPair x y ≤ 0 ↔ b ≤ a := by
  simp only [cmpPair, hx, hy, toNumber]
  omega

theorem pairKey_eq {x : JVal × JVal} {a : Int} (hx : x.2 = JVal.jnum a) :
    pairKey x = a := by
  simp [pairKey, hx, toNumber]

theorem mem_insertPair {a x : JVal × JVal} {l : List (JVal × JVal)} :
    a ∈ insertPair x l ↔ a = x ∨ a ∈ l := by
  induction l with
  | nil => simp [insertPair]
  | cons y ys ih =>
    by_cases h : cmpPair x y ≤ 0
    · simp [insertPair, h]
    · simp only [insertPair, h, if_false, List.mem_cons, ih]
      tauto

theorem mem_sortPairs {a : JVal × JVal} {l : List (JVal × JVal)} :
    a ∈ sortPairs l ↔ a ∈ l := by
  induction l with
  | nil => simp [sortPairs]
  | cons x xs ih =>
    simp only [sortPairs, mem_insertPair, ih, List.mem_cons]

theorem pairwise_insertPair {x : JVal × JVal} {l : List (JVal × JVal)}
    (hx : ∃ n, x.2 = JVal.jnum n) (hl : ∀ p ∈ l, ∃ n, p.2 = JVal.jnum n)
    (h : l.Pairwise fun a b => pairKey b ≤ pairKey a) :
    (insertPair x l).Pairwise fun a b => pairKey b ≤ pairKey a := by
  induction l with
  | nil => simp [insertPair]
  | cons y ys ih =>
    rcases List.pairwise_cons.mp h with ⟨hy, hys⟩
    rcases hx with ⟨a, hxa⟩
    rcases hl y (List.mem_cons_self y ys) with ⟨b, hyb⟩
    have hl' : ∀ p ∈ ys, ∃ n, p.2 = JVal.jnum n := fun p hp =>
      hl p (List.mem_cons_of_mem _ hp)
    by_cases hxy : cmpPair x y ≤ 0
    · simp only [insertPair, hxy, if_true]
      refine List.pairwise_cons.mpr ⟨?_, h⟩
      intro z hz
      have hba : b ≤ a := (cmpPair_le_zero_iff hxa hyb).mp hxy
      rcases List.mem_cons.mp hz with hz | hz
      · subst hz
        rw [pairKey_eq hxa, pairKey_eq hyb]
        exact hba
      · have := hy z hz
        rw [pairKey_eq hxa]
        rw [pairKey_eq hyb] at this
        omega
    · simp only [insertPair, hxy, if_false]
      refine List.pairwise_cons.mpr ⟨?_, ih hl' hys⟩
      intro z hz
      rcases mem_insertPair.mp hz with hz | hz
      · subst hz
        have : ¬ b ≤ a := fun hba => hxy ((cmpPair_le_zero_iff hxa hyb).mpr hba)
        rw [pairKey_eq hxa, pairKey_eq hyb]
        omega
      · exact hy z hz

theorem pairwise_sortPairs {l : List (JVal × JVal)}
    (hl : ∀ p ∈ l, ∃ n, p.2 = JVal.jnum n) :
    (sortPairs l).Pairwise fun a b => pairKey b ≤ pairKey a := by
  induction l with
  | nil => simp [sortPairs]
  | cons x xs ih =>
    have hxs : ∀ p ∈ xs, ∃ n, p.2 = JVal.jnum n := fun p hp =>
      hl p (List.mem_cons_of_mem _ hp)
    have hsorted : ∀ p ∈ sortPairs xs, ∃ n, p.2 = JVal.jnum n := fun p hp =>
      hxs p (mem_sortPairs.mp hp)
    exact pairwise_insertPair (hl x (List.mem_cons_self x xs)) hsorted (ih hxs)

theorem filter_insertPair (v : Int) {x : JVal × JVal} {l : List (JVal × JVal)}
    (hx : ∃ n, x.2 = JVal.jnum n) (hl : ∀ p ∈ l, ∃ n, p.2 = JVal.jnum n) :
    (insertPair x l).filter (fun p => p.2 == JVal.jnum v)
      = (if x.2 == JVal.jnum v then [x] else [])
          ++ l.filter (fun p => p.2 == JVal.jnum v) := by
  induction l with
  | nil => cases h : (x.2 == JVal.jnum v) <;> simp [insertPair, h]
  | cons y ys ih =>
    rcases hx with ⟨a, hxa⟩
    rcases hl y (List.mem_cons_self y ys) with ⟨b, hyb⟩
    have hl' : ∀ p ∈ ys, ∃ n, p.2 = JVal.jnum n := fun p hp =>
      hl p (List.mem_cons_of_mem _ hp)
    by_cases hxy : cmpPair x y ≤ 0
    · cases h : (x.2 == JVal.jnum v) <;>
        simp [insertPair, hxy, List.filter_cons, h]
    · have hba : ¬ b ≤ a := fun h' => hxy ((cmpPair_le_zero_iff hxa hyb).mpr h')
      simp only [insertPair, hxy, if_false, List.filter_cons]
      rw [ih hl']
      by_cases hxv : x.2 = JVal.jnum v
      · have hav : a = v := by
          rw [hxa] at hxv
          exact (JVal.jnum.injEq a v).mp hxv
        have hyv : (y.2 == JVal.jnum v) = false := by
          rw [hyb]
          simp only [beq_eq_false_iff_ne, ne_eq, JVal.jnum.injEq]
          omega
        simp [hyv]
      · have hxv' : (x.2 == JVal.jnum v) = false := by
          simp only [beq_eq_false_iff_ne, ne_eq]
          exact hxv
        simp [hxv']

theorem filter_sortPairs (v : Int) {l : List (JVal × JVal)}
    (hl : ∀ p ∈ l, ∃ n, p.2 = JVal.jnum n) :
    (sortPairs l).filter (fun p => p.2 == JVal.jnum v)
      = l.filter (fun p => p.2 == JVal.jnum v) := by
  induction l with
  | nil => simp [sortPairs]
  | cons x xs ih =>
    have hxs : ∀ p ∈ xs, ∃ n, p.2 = JVal.jnum n := fun p hp =>
      hl p (List.mem_cons_of_mem _ hp)
    have hsorted : ∀ p ∈ sortPairs xs, ∃ n, p.2 = JVal.jnum n := fun p hp =>
      hxs p (mem_sortPairs.mp hp)
    rw [sortPairs, filter_insertPair v (hl x (List.mem_cons_self x xs)) hsorted, ih hxs,
      List.filter_cons]
    cases h : (x.2 == JVal.jnum v) <;> simp [h]

/-- Unzipping then zipping a pair list is the identity. -/
theorem zip_map_fst_snd_self (l : List (α × β)) :
    (l.map Prod.fst).zip (l.map Prod.snd) = l := by
  induction l with
  | nil => rfl
  | cons p ps ih => simp [ih]

/-! ### Lemmas about the build steps -/

theorem sortedBarChartStep_isOk (s : MetricSection) (lf vf t sl c : String) :
    ∃ l, sortedBarChartStep (some s) lf vf t sl c = .ok l := by
  cases h : isValidArray s.data <;> simp [sortedBarChartStep, h]

theorem lineChartStep_isOk (s : MetricSection) (lf vf t sl bc : String) :
    ∃ l, lineChartStep (some s) lf vf t sl bc = .ok l := by
  cases h : isValidArray s.data <;> simp [lineChartStep, h]

theorem quarterlyStep_isOk (s : MetricSection) :
    ∃ l, quarterlyStep (some s) = .ok l := by
  cases h : isValidArray s.data
  · exact ⟨[], by simp [quarterlyStep, h]⟩
  · by_cases h2 : 0 < (groupBySender s.data "date" "message_count").dates.length
        ∧ 0 < (groupBySender s.data "date" "message_count").datasets.length
    · exact ⟨_, by simp only [quarterlyStep, h, if_true]; rw [if_pos h2]⟩
    · exact ⟨[], by simp [quarterlyStep, h, h2]⟩

theorem topTenStep_isOk (s : TopTenSection) :
    ∃ l, topTenStep (some s) = .ok l := by
  cases h : isValidArray s.data <;> simp [topTenStep, h]

theorem mapDaySummaries_isSome {ds : List DaySummaryRow}
    (h : ∀ r ∈ ds, r.content.isSome) : ∃ l, mapDaySummaries ds = some l := by
  induction ds with
  | nil => exact ⟨[], rfl⟩
  | cons r rs ih =>
    obtain ⟨c, hc⟩ := Option.isSome_iff_exists.mp (h r (List.mem_cons_self r rs))
    obtain ⟨rest, hrest⟩ := ih fun x hx => h x (List.mem_cons_of_mem _ hx)
    exact ⟨_, by simp only [mapDaySummaries, hc, hrest]; rfl⟩

theorem daySummariesStep_isOk (s : TopTenSection)
    (h : ∀ r ∈ s.day_summaries.getD [], r.content.isSome) :
    ∃ l, daySummariesStep (some s) = .ok l := by
  cases hds : s.day_summaries with
  | none => exact ⟨[], by simp [daySummariesStep, hds]⟩
  | some ds =>
    rw [hds] at h
    simp only [Option.getD_some] at h
    obtain ⟨l, hl⟩ := mapDaySummaries_isSome h
    by_cases hlen : 0 < (l.filter fun x => x.title != "" && x.summary != "").length
    · exact ⟨_, by simp only [daySummariesStep, hds, hl]; rw [if_pos hlen]⟩
    · exact ⟨[], by simp [daySummariesStep, hds, hl, hlen]⟩

/-! ### Claim theorems -/

set_option maxRecDepth 10000 in
/-- C1: with the `day_of_week` key absent but `monthly_messages` present, the
property access `analysisData.day_of_week.data` throws, the catch returns the
(empty) accumulator, and no item at all is produced — whereas with
`day_of_week` present-but-empty the monthly item is produced.  The absence of
one metric key therefore does change how other items are constructed,
contradicting the claimed per-metric isolation (a slip: the code elsewhere
uses optional chaining for exactly this, `top_ten_days?.day_summaries`). -/
theorem buildChartDataSets_absent_key_aborts :
    buildChartDataSets zeroRandom (some monthlyOnlyPayload) = []
    ∧ buildChartDataSets zeroRandom (some monthlyWithEmptyDayPayload) = [monthlyItem] := by
  constructor <;> decide

set_option maxRecDepth 10000 in
/-- C2 (counterexample): on a null payload the assembler returns `[]`
immediately, so the output is empty and its last element is not the closing
text card. -/
theorem buildChartDataSets_null_no_closing_card :
    ¬ ((buildChartDataSets zeroRandom none).getLast?
        = some (ChartItem.textCard closingTitle closingBody)) := by
  decide

set_option maxRecDepth 10000 in
/-- C2 (amended): for a non-null payload in which every metric key is present
and every day-summary entry carries a `content` object, no step of the try
block throws, so the returned sequence is non-empty and its last element is
the fixed closing text card; a null payload yields `[]`; the all-keys-present
but all-data-empty payload yields exactly the closing card (length 1). -/
theorem buildChartDataSets_closing_card_last (e : Nat → Nat) (a : AnalysisPayload)
    (h1 : a.day_of_week.isSome) (h2 : a.monthly_messages.isSome)
    (h3 : a.avg_messages_sent.isSome) (h4 : a.quarterly_contribution.isSome)
    (h5 : a.yearly_comparison.isSome) (h6 : a.top_ten_days.isSome)
    (h7 : a.manic.isSome) (h8 : a.most_ignored.isSome) (h9 : a.novelist.isSome)
    (h10 : a.swears.isSome) (h11 : a.hangout.isSome)
    (h12 : ∀ t, a.top_ten_days = some t → ∀ r ∈ t.day_summaries.getD [], r.content.isSome) :
    (buildChartDataSets e (some a)).getLast?
        = some (ChartItem.textCard closingTitle closingBody)
    ∧ buildChartDataSets e none = []
    ∧ buildChartDataSets zeroRandom (some allKeysEmptyPayload)
        = [ChartItem.textCard closingTitle closingBody] := by
  refine ⟨?_, rfl, by decide⟩
  obtain ⟨s1, e1⟩ := Option.isSome_iff_exists.mp h1
  obtain ⟨s2, e2⟩ := Option.isSome_iff_exists.mp h2
  obtain ⟨s3, e3⟩ := Option.isSome_iff_exists.mp h3
  obtain ⟨s4, e4⟩ := Option.isSome_iff_exists.mp h4
  obtain ⟨s5, e5⟩ := Option.isSome_iff_exists.mp h5
  obtain ⟨s6, e6⟩ := Option.isSome_iff_exists.mp h6
  obtain ⟨s7, e7⟩ := Option.isSome_iff_exists.mp h7
  obtain ⟨s8, e8⟩ := Option.isSome_iff_exists.mp h8
  obtain ⟨s9, e9⟩ := Option.isSome_iff_exists.mp h9
  obtain ⟨s10, e10⟩ := Option.isSome_iff_exists.mp h10
  obtain ⟨s11, e11⟩ := Option.isSome_iff_exists.mp h11
  obtain ⟨l1, f1⟩ := sortedBarChartStep_isOk s1 "day_of_week" "avg_messages"
    "Average Messages by Day of Week" "Avg Messages by Day of Week" "rgba(54, 162, 235, 0.6)"
  obtain ⟨l2, f2⟩ := lineChartStep_isOk s2 "date" "message_count"
    "Monthly Message Count" "Messages per Month" "rgba(255, 99, 132, 1)"
  obtain ⟨l3, f3⟩ := lineChartStep_isOk s3 "month" "avg_messages_sent"
    "Average Messages Sent per Month" "Avg Messages per Month" "rgba(75, 192, 192, 1)"
  obtain ⟨l4, f4⟩ := quarterlyStep_isOk s4
  obtain ⟨l5, f5⟩ := sortedBarChartStep_isOk s5 "sender" "percent_change"
    "Year-Over-Year Message Change" "YoY % Change" "rgba(153, 102, 255, 0.6)"
  obtain ⟨l6, f6⟩ := topTenStep_isOk s6
  obtain ⟨l7, f7⟩ := daySummariesStep_isOk s6 (h12 s6 e6)
  obtain ⟨l8, f8⟩ := sortedBarChartStep_isOk s7 "sender" "percent_manic"
    "Most Manic Award" "% Messages (10pm-4am)" "rgba(54, 162, 235, 0.6)"
  obtain ⟨l9, f9⟩ := sortedBarChartStep_isOk s8 "sender" "average_time_to_respond"
    "Most Ignored Member :(" "Average Minutes Until Response" "rgba(54, 162, 235, 0.6)"
  obtain ⟨l10, f10⟩ := sortedBarChartStep_isOk s9 "sender" "average_message_length"
    "Groupchat Novelist Award" "Average Characters per Message" "rgba(54, 162, 235, 0.6)"
  obtain ⟨l11, f11⟩ := sortedBarChartStep_isOk s10 "sender" "swears_per_message"
    "Swear Word Frequency" "Swears per Message" "rgba(255, 99, 132, 0.6)"
  obtain ⟨l12, f12⟩ := sortedBarChartStep_isOk s11 "sender" "hangouts_per_message"
    "Hangout Discussion Frequency" "Hangout References per Message" "rgba(75, 192, 192, 0.6)"
  simp only [buildChartDataSets, e1, e2, e3, e4, e5, e6, e7, e8, e9, e10, e11,
    f1, f2, f3, f4, f5, f6, f7, f8, f9, f10, f11, f12, runSteps]
  simp [List.getLast?_append]

/-- C2 witness: the amended theorem applied to the all-keys-present,
all-data-empty payload. -/
theorem buildChartDataSets_closing_card_last_witness :
    allKeysEmptyPayload.day_of_week.isSome = true
    ∧ (buildChartDataSets zeroRandom (some allKeysEmptyPayload)).getLast?
        = some (ChartItem.textCard closingTitle closingBody) :=
  ⟨rfl,
    (buildChartDataSets_closing_card_last zeroRandom allKeysEmptyPayload rfl rfl rfl rfl rfl
      rfl rfl rfl rfl rfl rfl (by
        intro t ht r hr
        rw [show t = (⟨none, none, none⟩ : TopTenSection) from
          (Option.some_inj.mp ht).symm] at hr
        simp at hr)).1⟩

/-- C6: the assembler is deterministic — its output does not depend on the
ambient random stream (it never calls `getRandomColor`), so two invocations
on the same payload agree. -/
theorem buildChartDataSets_deterministic (e1 e2 : Nat → Nat)
    (p : Option AnalysisPayload) :
    buildChartDataSets e1 p = buildChartDataSets e2 p := rfl

/-- C7: a failed year-change fetch (non-2xx or network error) moves the
phase to `error` — so the error screen, not the visualization, is rendered —
while payload and cursor are left untouched; a successful fetch replaces the
payload, resets the cursor to 0 and renders the visualization phase. -/
theorem handleYearChange_spec (s : AppState) (year : String) (e : Nat → Nat) :
    ((handleYearChange s year .httpError).phase = Phase.error
      ∧ (handleYearChange s year .httpError).analysisData = s.analysisData
      ∧ (handleYearChange s year .httpError).currentChartIndex = s.currentChartIndex
      ∧ renderedScreen e (handleYearChange s year .httpError) = Screen.errorScreen)
    ∧ ((handleYearChange s year .networkError).phase = Phase.error
      ∧ (handleYearChange s year .networkError).analysisData = s.analysisData
      ∧ (handleYearChange s year .networkError).currentChartIndex = s.currentChartIndex
      ∧ renderedScreen e (handleYearChange s year .networkError) = Screen.errorScreen)
    ∧ ∀ p : AnalysisPayload,
        (handleYearChange s year (.success p)).analysisData = some p
        ∧ (handleYearChange s year (.success p)).currentChartIndex = 0
        ∧ (handleYearChange s year (.success p)).phase = Phase.visualize :=
  ⟨⟨rfl, rfl, rfl, rfl⟩, ⟨rfl, rfl, rfl, rfl⟩, fun _ => ⟨rfl, rfl, rfl⟩⟩

set_option maxRecDepth 10000 in
/-- C8: on the scenario payload the assembler produces exactly one item, the
day-of-week bar chart with labels ["Tue","Mon"] and values [10,5]
(descending sort). -/
theorem day_of_week_scenario :
    buildChartDataSets zeroRandom (some dayOfWeekScenarioPayload)
      = [ChartItem.chart "Average Messages by Day of Week" .bar
          [.jstr "Tue", .jstr "Mon"]
          [{ label := .jstr "Avg Messages by Day of Week",
             data := [.jnum 10, .jnum 5], borderColor := none,
             backgroundColor := some "rgba(54, 162, 235, 0.6)", fill := none }]
          none] := by
  decide

/-- C9: when the inputs are not two non-empty arrays of equal length,
`sortBarData` sorts nothing and raises nothing: it returns both inputs
unchanged, with a null input replaced by `[]`. -/
theorem sortBarData_passthrough (labels data : Option (List JVal))
    (h : ¬ (isValidArray labels = true ∧ isValidArray data = true
            ∧ (labels.getD []).length = (data.getD []).length)) :
    sortBarData labels data = ⟨labels.getD [], data.getD []⟩ := by
  have hc : ¬ ((isValidArray labels && isValidArray data
      && ((labels.getD []).length == (data.getD []).length)) = true) := by
    simp only [Bool.and_eq_true, beq_iff_eq]
    intro hcon
    exact h ⟨hcon.1.1, hcon.1.2, hcon.2⟩
  simp only [sortBarData, if_neg hc]

/-- C9 witness: a length mismatch (1 label, 2 values) passes through. -/
theorem sortBarData_passthrough_witness :
    (¬ (isValidArray (some [JVal.jstr "a"]) = true
        ∧ isValidArray (some [JVal.jnum 1, JVal.jnum 2]) = true
        ∧ ((some [JVal.jstr "a"]).getD []).length
            = ((some [JVal.jnum 1, JVal.jnum 2]).getD []).length))
    ∧ sortBarData (some [JVal.jstr "a"]) (some [JVal.jnum 1, JVal.jnum 2])
        = ⟨[JVal.jstr "a"], [JVal.jnum 1, JVal.jnum 2]⟩ :=
  ⟨by decide, sortBarData_passthrough _ _ (by decide)⟩

/-- `handleScroll` with its local binding expanded. -/
theorem handleScroll_eq (e : Nat → Nat) (p : Option AnalysisPayload)
    (b : Bool) (idx deltaY : Int) :
    handleScroll e b p idx deltaY =
      if b || p.isNone then idx
      else if (buildChartDataSets e p).length == 0 then idx
      else if deltaY > 0 && idx < ((buildChartDataSets e p).length : Int) - 1 then idx + 1
      else if deltaY < 0 && idx > 0 then idx - 1
      else idx := rfl

/-- A scroll event that can take neither guarded branch is a no-op. -/
theorem handleScroll_noop (e : Nat → Nat) (p : Option AnalysisPayload)
    (b : Bool) (idx deltaY : Int)
    (hf : ¬ (deltaY > 0 ∧ idx < ((buildChartDataSets e p).length : Int) - 1))
    (hbk : ¬ (deltaY < 0 ∧ idx > 0)) :
    handleScroll e b p idx deltaY = idx := by
  rw [handleScroll_eq]
  by_cases hb : (b || p.isNone) = true
  · rw [if_pos hb]
  · rw [if_neg hb]
    by_cases hz : ((buildChartDataSets e p).length == 0) = true
    · rw [if_pos hz]
    · rw [if_neg hz]
      have hfwd : ¬ ((deltaY > 0 && idx < ((buildChartDataSets e p).length : Int) - 1) = true) := by
        simp only [Bool.and_eq_true, decide_eq_true_eq]
        exact hf
      have hback : ¬ ((deltaY < 0 && idx > 0) = true) := by
        simp only [Bool.and_eq_true, decide_eq_true_eq]
        exact hbk
      rw [if_neg hfwd, if_neg hback]

/-- A single scroll event keeps the cursor inside `[0, n-1]`. -/
theorem handleScroll_bounds (e : Nat → Nat) (p : Option AnalysisPayload)
    (b : Bool) (idx deltaY : Int)
    (h0 : 0 ≤ idx) (h1 : idx ≤ ((buildChartDataSets e p).length : Int) - 1) :
    0 ≤ handleScroll e b p idx deltaY
    ∧ handleScroll e b p idx deltaY ≤ ((buildChartDataSets e p).length : Int) - 1 := by
  rw [handleScroll_eq]
  by_cases hb : (b || p.isNone) = true
  · rw [if_pos hb]
    exact ⟨h0, h1⟩
  · rw [if_neg hb]
    by_cases hz : ((buildChartDataSets e p).length == 0) = true
    · rw [if_pos hz]
      exact ⟨h0, h1⟩
    · rw [if_neg hz]
      by_cases hfwd : ((deltaY > 0 && idx < ((buildChartDataSets e p).length : Int) - 1) = true)
      · rw [if_pos hfwd]
        simp only [Bool.and_eq_true, decide_eq_true_eq] at hfwd
        omega
      · rw [if_neg hfwd]
        by_cases hback : ((deltaY < 0 && idx > 0) = true)
        · rw [if_pos hback]
          simp only [Bool.and_eq_true, decide_eq_true_eq] at hback
          omega
        · rw [if_neg hback]
          exact ⟨h0, h1⟩

/-- Folding any event sequence from an in-range cursor stays in range. -/
theorem runScrollEvents_bounds (e : Nat → Nat) (p : Option AnalysisPayload)
    (events : List (Bool × Int)) :
    ∀ start : Int, 0 ≤ start → start ≤ ((buildChartDataSets e p).length : Int) - 1 →
      0 ≤ runScrollEvents e p events start
      ∧ runScrollEvents e p events start ≤ ((buildChartDataSets e p).length : Int) - 1 := by
  induction events with
  | nil => exact fun start h0 h1 => ⟨h0, h1⟩
  | cons ev evs ih =>
    intro start h0 h1
    have hstep := handleScroll_bounds e p ev.1 start ev.2 h0 h1
    exact ih _ hstep.1 hstep.2

/-- C5: for an assembled sequence of length `n ≥ 1`, the navigation cursor
started at 0 stays in `[0, n-1]` after every finite sequence of scroll
events (the quantification over all event lists covers every prefix), and a
forward step at the top boundary or a backward step at the bottom boundary
leaves the cursor unchanged. -/
theorem navigation_cursor_in_bounds (e : Nat → Nat) (p : Option AnalysisPayload)
    (hn : 1 ≤ (buildChartDataSets e p).length) (events : List (Bool × Int)) :
    (0 ≤ runScrollEvents e p events 0
      ∧ runScrollEvents e p events 0 ≤ ((buildChartDataSets e p).length : Int) - 1)
    ∧ (∀ (b : Bool) (deltaY : Int), 0 < deltaY →
        handleScroll e b p (((buildChartDataSets e p).length : Int) - 1) deltaY
          = ((buildChartDataSets e p).length : Int) - 1)
    ∧ (∀ (b : Bool) (deltaY : Int), deltaY < 0 →
        handleScroll e b p 0 deltaY = 0) := by
  refine ⟨runScrollEvents_bounds e p events 0 le_rfl (by omega), ?_, ?_⟩
  · intro b deltaY hd
    exact handleScroll_noop e p b _ deltaY (by omega) (by omega)
  · intro b deltaY hd
    exact handleScroll_noop e p b 0 deltaY (by omega) (by omega)

/-- C5 witness: the all-keys-empty payload gives a length-1 sequence; a
forward then a backward event keep the cursor at 0. -/
theorem navigation_cursor_in_bounds_witness :
    1 ≤ (buildChartDataSets zeroRandom (some allKeysEmptyPayload)).length
    ∧ (0 ≤ runScrollEvents zeroRandom (some allKeysEmptyPayload) [(false, 1), (false, -1)] 0
        ∧ runScrollEvents zeroRandom (some allKeysEmptyPayload) [(false, 1), (false, -1)] 0
            ≤ ((buildChartDataSets zeroRandom (some allKeysEmptyPayload)).length : Int) - 1) :=
  ⟨by decide,
    (navigation_cursor_in_bounds zeroRandom (some allKeysEmptyPayload) (by decide)
      [(false, 1), (false, -1)]).1⟩

/-- C3: on two equal-length non-empty inputs whose values are all numeric,
`sortBarData` returns values that are non-increasing at every index pair,
and the label/value pairs sharing any given value keep their original
relative order (stable descending sort). -/
theorem sortBarData_sorted_descending_stable (labels : List JVal) (ns : List Int)
    (hlen : labels.length = ns.length) (hpos : 0 < labels.length) :
    (sortBarData (some labels) (some (ns.map JVal.jnum))).sortedData.Pairwise
        (fun a b => (toNumber b).getD 0 ≤ (toNumber a).getD 0)
    ∧ ∀ v : Int,
        ((sortBarData (some labels) (some (ns.map JVal.jnum))).sortedLabels.zip
            (sortBarData (some labels) (some (ns.map JVal.jnum))).sortedData).filter
              (fun p => p.2 == JVal.jnum v)
          = (labels.zip (ns.map JVal.jnum)).filter (fun p => p.2 == JVal.jnum v) := by
  have hcond : (isValidArray (some labels) && isValidArray (some (ns.map JVal.jnum))
      && (((some labels).getD []).length
            == ((some (ns.map JVal.jnum)).getD []).length)) = true := by
    simp only [isValidArray, Option.getD_some, List.length_map, Bool.and_eq_true,
      decide_eq_true_eq, beq_iff_eq]
    omega
  have heq : sortBarData (some labels) (some (ns.map JVal.jnum))
      = ⟨(sortPairs (labels.zip (ns.map JVal.jnum))).map Prod.fst,
         (sortPairs (labels.zip (ns.map JVal.jnum))).map Prod.snd⟩ := by
    unfold sortBarData
    rw [if_pos hcond]
    rfl
  have hP : ∀ p ∈ labels.zip (ns.map JVal.jnum), ∃ n, p.2 = JVal.jnum n := by
    intro p hp
    have := (List.of_mem_zip hp).2
    obtain ⟨n, _, hn⟩ := List.mem_map.mp this
    exact ⟨n, hn.symm⟩
  constructor
  · rw [heq]
    exact List.pairwise_map.mpr (pairwise_sortPairs hP)
  · intro v
    rw [heq]
    simp only
    rw [zip_map_fst_snd_self]
    exact filter_sortPairs v hP

/-- C3 witness: labels a, b, c with values 1, 3, 1; sortedness and the
stability of the two tied rows, instantiated at value 1. -/
theorem sortBarData_sorted_descending_stable_witness :
    ([JVal.jstr "a", JVal.jstr "b", JVal.jstr "c"].length
        = ([1, 3, 1] : List Int).length)
    ∧ (sortBarData (some [JVal.jstr "a", JVal.jstr "b", JVal.jstr "c"])
        (some (([1, 3, 1] : List Int).map JVal.jnum))).sortedData.Pairwise
          (fun a b => (toNumber b).getD 0 ≤ (toNumber a).getD 0)
    ∧ ((sortBarData (some [JVal.jstr "a", JVal.jstr "b", JVal.jstr "c"])
          (some (([1, 3, 1] : List Int).map JVal.jnum))).sortedLabels.zip
            (sortBarData (some [JVal.jstr "a", JVal.jstr "b", JVal.jstr "c"])
              (some (([1, 3, 1] : List Int).map JVal.jnum))).sortedData).filter
              (fun p => p.2 == JVal.jnum 1)
        = ([JVal.jstr "a", JVal.jstr "b", JVal.jstr "c"].zip
            (([1, 3, 1] : List Int).map JVal.jnum)).filter
              (fun p => p.2 == JVal.jnum 1) := by
  have h := sortBarData_sorted_descending_stable
    [JVal.jstr "a", JVal.jstr "b", JVal.jstr "c"] [1, 3, 1] (by decide) (by decide)
  exact ⟨by decide, h.1, h.2 1⟩

theorem length_generateDistinctColors (n : Nat) :
    (generateDistinctColors n).length = n := by
  rw [generateDistinctColors, List.length_map, List.length_range]

theorem groupBySender_some_eq (rows : List Row) (dateField valueField : String)
    (h : 0 < rows.length) :
    groupBySender (some rows) dateField valueField
      = ⟨gbDates rows dateField, gbDatasets rows dateField valueField⟩ := by
  unfold groupBySender
  rw [if_pos (by simp [isValidArray, h])]
  rfl

theorem groupBySender_invalid_eq (data : Option (List Row)) (dateField valueField : String)
    (h : ¬ isValidArray data = true) :
    groupBySender data dateField valueField = ⟨[], []⟩ := by
  unfold groupBySender
  rw [if_neg h]

theorem gbDatasets_map_label (rows : List Row) (dateField valueField : String) :
    (gbDatasets rows dateField valueField).map Dataset.label = gbSenders rows := by
  rw [gbDatasets, List.map_map]
  have hfst : (Dataset.label ∘ gbDataset rows dateField valueField) = Prod.fst := rfl
  rw [hfst]
  exact List.map_fst_zip _ _ (by rw [length_generateDistinctColors])

theorem mem_gbDatasets {ds : Dataset} {rows : List Row} {dateField valueField : String}
    (h : ds ∈ gbDatasets rows dateField valueField) :
    ∃ sc : JVal × String, sc.1 ∈ gbSenders rows
      ∧ ds = gbDataset rows dateField valueField sc := by
  rw [gbDatasets] at h
  obtain ⟨sc, hsc, rfl⟩ := List.mem_map.mp h
  exact ⟨sc, (List.of_mem_zip hsc).1, rfl⟩

theorem gbDataset_data_length (rows : List Row) (dateField valueField : String)
    (sc : JVal × String) :
    (gbDataset rows dateField valueField sc).data.length
      = (gbDates rows dateField).length := by
  rw [gbDataset]
  exact List.length_map _ _

/-- C10: every returned dataset is aligned to the date axis (same length) and
carries a truthy (non-empty) sender label; the series labels are exactly the
deduplicated senders with falsy (missing/empty) ones dropped — such rows
contribute no series at all. -/
theorem groupBySender_alignment_truthy (data : Option (List Row))
    (dateField valueField : String) :
    (∀ ds ∈ (groupBySender data dateField valueField).datasets,
        ds.data.length = (groupBySender data dateField valueField).dates.length
        ∧ truthy ds.label = true)
    ∧ ∀ rows : List Row,
        (groupBySender (some rows) dateField valueField).datasets.map Dataset.label
          = (dedupFirst (rows.map fun d => safeGet (some d) "sender" (.jstr ""))).filter
              truthy := by
  constructor
  · intro ds hds
    by_cases hv : isValidArray data = true
    · cases data with
      | none => simp [isValidArray] at hv
      | some rows =>
        have hlen : 0 < rows.length := by simpa [isValidArray] using hv
        rw [groupBySender_some_eq rows dateField valueField hlen] at hds ⊢
        obtain ⟨sc, hsc, rfl⟩ := mem_gbDatasets hds
        refine ⟨gbDataset_data_length rows dateField valueField sc, ?_⟩
        rw [gbSenders] at hsc
        exact List.of_mem_filter hsc
    · rw [groupBySender_invalid_eq data dateField valueField hv] at hds
      simp at hds
  · intro rows
    by_cases hlen : 0 < rows.length
    · rw [groupBySender_some_eq rows dateField valueField hlen]
      exact gbDatasets_map_label rows dateField valueField
    · have hnil : rows = [] := by
        cases rows with
        | nil => rfl
        | cons r rs => simp at hlen
      subst hnil
      simp [groupBySender, isValidArray, dedupFirst]

/-- C10 witness: a concrete row list with one empty-sender row, whose series
labels are exactly the one truthy sender. -/
theorem groupBySender_alignment_truthy_witness :
    (∀ ds ∈ (groupBySender
          (some [[("sender", JVal.jstr "A"), ("date", JVal.jstr "Q1"),
                  ("message_count", JVal.jnum 5)],
                 [("date", JVal.jstr "Q2"), ("message_count", JVal.jnum 7)]])
          "date" "message_count").datasets,
        ds.data.length = (groupBySender
          (some [[("sender", JVal.jstr "A"), ("date", JVal.jstr "Q1"),
                  ("message_count", JVal.jnum 5)],
                 [("date", JVal.jstr "Q2"), ("message_count", JVal.jnum 7)]])
          "date" "message_count").dates.length
        ∧ truthy ds.label = true)
    ∧ (groupBySender
          (some [[("sender", JVal.jstr "A"), ("date", JVal.jstr "Q1"),
                  ("message_count", JVal.jnum 5)],
                 [("date", JVal.jstr "Q2"), ("message_count", JVal.jnum 7)]])
          "date" "message_count").datasets.map Dataset.label = [JVal.jstr "A"] := by
  have h := groupBySender_alignment_truthy
    (some [[("sender", JVal.jstr "A"), ("date", JVal.jstr "Q1"),
            ("message_count", JVal.jnum 5)],
           [("date", JVal.jstr "Q2"), ("message_count", JVal.jnum 7)]])
    "date" "message_count"
  refine ⟨h.1, ?_⟩
  rw [h.2]
  decide

/-- C4: under the payload's row shape (non-empty string senders and dates),
`groupBySender` produces the series labels exactly equal to the distinct
sender values in first-occurrence order; a shared date axis that is sorted
ascending, duplicate-free, and carries exactly the distinct date values of
the rows; and a 0 value at every (sender, date) position with no matching
row. -/
theorem groupBySender_series_axis_zero_fill (rows : List Row)
    (dateField valueField : String)
    (hsender : ∀ d ∈ rows, ∃ s, safeGet (some d) "sender" (.jstr "") = JVal.jstr s ∧ s ≠ "")
    (hdate : ∀ d ∈ rows, ∃ s, safeGet (some d) dateField (.jstr "") = JVal.jstr s ∧ s ≠ "") :
    ((groupBySender (some rows) dateField valueField).datasets.map Dataset.label
        = dedupFirst (rows.map fun d => safeGet (some d) "sender" (.jstr "")))
    ∧ (groupBySender (some rows) dateField valueField).dates.Pairwise
        (fun a b => jvalToString a ≤ jvalToString b)
    ∧ (groupBySender (some rows) dateField valueField).dates.Nodup
    ∧ (∀ v, v ∈ (groupBySender (some rows) dateField valueField).dates
          ↔ v ∈ rows.map fun d => safeGet (some d) dateField (.jstr ""))
    ∧ ∀ ds ∈ (groupBySender (some rows) dateField valueField).datasets,
        ds.data.length = (groupBySender (some rows) dateField valueField).dates.length
        ∧ ∀ (i : Nat) (dt : JVal),
            (groupBySender (some rows) dateField valueField).dates[i]? = some dt →
            (∀ d ∈ rows, ¬ (safeGet (some d) "sender" (.jstr "") = ds.label
                ∧ safeGet (some d) dateField (.jstr "") = dt)) →
              ds.data[i]? = some (JVal.jnum 0) := by
  have hstruthy : ∀ x ∈ dedupFirst (rows.map fun d => safeGet (some d) "sender" (.jstr "")),
      truthy x = true := by
    intro x hx
    obtain ⟨d, hd, hxd⟩ := List.mem_map.mp (mem_dedupFirst.mp hx)
    obtain ⟨s, hs, hne⟩ := hsender d hd
    rw [← hxd, hs]
    simpa [truthy] using hne
  have hdtruthy : ∀ x ∈ dedupFirst (rows.map fun d => safeGet (some d) dateField (.jstr "")),
      truthy x = true := by
    intro x hx
    obtain ⟨d, hd, hxd⟩ := List.mem_map.mp (mem_dedupFirst.mp hx)
    obtain ⟨s, hs, hne⟩ := hdate d hd
    rw [← hxd, hs]
    simpa [truthy] using hne
  by_cases hlen : 0 < rows.length
  case neg =>
    have hnil : rows = [] := by
      cases rows with
      | nil => rfl
      | cons r rs => simp at hlen
    subst hnil
    refine ⟨?_, ?_, ?_, ?_, ?_⟩ <;>
      simp [groupBySender, isValidArray, dedupFirst]
  case pos =>
    simp only [groupBySender_some_eq rows dateField valueField hlen]
    refine ⟨?_, ?_, ?_, ?_, ?_⟩
    · rw [gbDatasets_map_label, gbSenders, List.filter_eq_self.mpr hstruthy]
    · exact pairwise_sortByStr _
    · exact ((sortByStr_perm _).nodup_iff).mpr ((nodup_dedupFirst _).filter _)
    · intro v
      rw [gbDates, List.filter_eq_self.mpr hdtruthy]
      exact ((sortByStr_perm _).mem_iff).trans mem_dedupFirst
    · intro ds hds
      obtain ⟨sc, hsc, rfl⟩ := mem_gbDatasets hds
      refine ⟨gbDataset_data_length rows dateField valueField sc, ?_⟩
      intro i dt hdt hnone
      have hfind : ((rows.filter fun d => safeGet (some d) "sender" (.jstr "") == sc.1).find?
          fun x => safeGet (some x) dateField (.jstr "") == dt) = none := by
        apply List.find?_eq_none.mpr
        intro x hx hpred
        obtain ⟨hxrows, hxs⟩ := List.mem_filter.mp hx
        exact hnone x hxrows ⟨by simpa using hxs, by simpa using hpred⟩
      show ((gbDates rows dateField).map fun dt =>
          safeGet ((rows.filter fun d => safeGet (some d) "sender" (.jstr "") == sc.1).find?
            fun x => safeGet (some x) dateField (.jstr "") == dt)
            valueField (.jnum 0))[i]? = some (JVal.jnum 0)
      rw [List.getElem?_map]
      have hdt' : (gbDates rows dateField)[i]? = some dt := hdt
      rw [hdt']
      show some (safeGet
          ((rows.filter fun d => safeGet (some d) "sender" (.jstr "") == sc.1).find?
            fun x => safeGet (some x) dateField (.jstr "") == dt) valueField (.jnum 0))
        = some (JVal.jnum 0)
      rw [hfind]
      rfl

/-- C4 witness: two rows with senders A, B and dates Q2, Q1; series labels
are [A, B] and the axis facts hold. -/
theorem groupBySender_series_axis_zero_fill_witness :
    ((groupBySender
        (some [[("sender", JVal.jstr "A"), ("date", JVal.jstr "Q2"),
                ("message_count", JVal.jnum 5)],
               [("sender", JVal.jstr "B"), ("date", JVal.jstr "Q1"),
                ("message_count", JVal.jnum 7)]])
        "date" "message_count").datasets.map Dataset.label
      = dedupFirst (([[("sender", JVal.jstr "A"), ("date", JVal.jstr "Q2"),
                ("message_count", JVal.jnum 5)],
               [("sender", JVal.jstr "B"), ("date", JVal.jstr "Q1"),
                ("message_count", JVal.jnum 7)]] : List Row).map
            fun d => safeGet (some d) "sender" (.jstr "")))
    ∧ (groupBySender
        (some [[("sender", JVal.jstr "A"), ("date", JVal.jstr "Q2"),
                ("message_count", JVal.jnum 5)],
               [("sender", JVal.jstr "B"), ("date", JVal.jstr "Q1"),
                ("message_count", JVal.jnum 7)]])
        "date" "message_count").dates.Nodup := by
  have h := groupBySender_series_axis_zero_fill
    [[("sender", JVal.jstr "A"), ("date", JVal.jstr "Q2"),
      ("message_count", JVal.jnum 5)],
     [("sender", JVal.jstr "B"), ("date", JVal.jstr "Q1"),
      ("message_count", JVal.jnum 7)]]
    "date" "message_count"
    (by
      intro d hd
      simp only [List.mem_cons, List.not_mem_nil, or_false] at hd
      rcases hd with rfl | rfl
      · exact ⟨"A", rfl, by decide⟩
      · exact ⟨"B", rfl, by decide⟩)
    (by
      intro d hd
      simp only [List.mem_cons, List.not_mem_nil, or_false] at hd
      rcases hd with rfl | rfl
      · exact ⟨"Q2", rfl, by decide⟩
      · exact ⟨"Q1", rfl, by decide⟩)
  exact ⟨h.1, h.2.2.1⟩

end GW
